import Mathlib

/-!
Verification of the `securityLayer` module of ClauseCraft AI
(src/services/securityLayer.ts): session lifecycle, input validation,
PII redaction and the guarded execution wrapper `secureExecute`.

The five PII regular expressions are shallowly embedded as hand-transcribed
matchers over `List Char` that follow the JavaScript backtracking search
order (leftmost position, then priority order of the quantifier choices:
greedy quantifiers prefer the longer alternative, lazy quantifiers the
shorter, ordered alternation tries alternatives left to right, and the
most recently created choice point is retried first on failure).
`String.prototype.replace` with the `g` flag is embedded as a left-to-right
scan that replaces each match and resumes immediately after it.
-/

set_option autoImplicit false

namespace SecurityLayer

/-! ## Character classes used by the PII patterns -/

/-- JavaScript word character, as used by the `\b` assertion. -/
def isWordChar (c : Char) : Bool :=
  c.isAlpha || c.isDigit || c == '_'

/-- Whitespace characters recognised by `\s` (ASCII subset). -/
def isSpaceChar (c : Char) : Bool :=
  c == ' ' || c == '\t' || c == '\n' || c == '\r' || c == '\x0b' || c == '\x0c'

/-- The class `[a-zA-Z0-9._%+-]` (local part of the EMAIL pattern). -/
def emailLocalChar (c : Char) : Bool :=
  c.isAlpha || c.isDigit || c == '.' || c == '_' || c == '%' || c == '+' || c == '-'

/-- The class `[a-zA-Z0-9.-]` (domain part of the EMAIL pattern). -/
def emailDomainChar (c : Char) : Bool :=
  c.isAlpha || c.isDigit || c == '.' || c == '-'

/-- The class `[-. ]` (separators of the PHONE pattern). -/
def sepChar (c : Char) : Bool :=
  c == '-' || c == '.' || c == ' '

/-- The `\b` word-boundary assertion between an optional previous and an
optional current character (absent characters count as non-word). -/
def boundaryAt (prev cur : Option Char) : Bool :=
  (match prev with | some c => isWordChar c | none => false) !=
  (match cur with | some c => isWordChar c | none => false)

/-- `exactDigits n s` holds when `s` starts with at least `n` characters and
the first `n` are decimal digits; embeds `[0-9]{n}` / `\d{n}`. -/
def exactDigits (n : Nat) (s : List Char) : Bool :=
  (s.take n).length == n && (s.take n).all (·.isDigit)

/-! ## EMAIL: `[a-zA-Z0-9._%+-]+@[a-zA-Z0-9.-]+\.[a-zA-Z]{2,}` -/

/-- Backtracking search for the domain part: try domain lengths `k, k-1, …, 1`
(the greedy `[a-zA-Z0-9.-]+` yields its longest prefix first), requiring the
literal `\.` right after it and then a greedy `[a-zA-Z]{2,}` run. `s2` is the
text after the `@`. Returns the length consumed from `s2`. -/
def emailDomainTail (s2 : List Char) : Nat → Option Nat
  | 0 => none
  | k + 1 =>
    let tld := ((s2.drop (k + 2)).takeWhile (·.isAlpha)).length
    if s2.get? (k + 1) == some '.' && 2 ≤ tld then
      some ((k + 1) + 1 + tld)
    else
      emailDomainTail s2 k

/-- Match of the EMAIL pattern starting at the head of `s`; returns the length
of the JS-preferred match. The local part needs no backtracking: `@` is not in
the local class, so only the maximal class run can be followed by `@`. -/
def matchEmailAt (_prev : Option Char) (s : List Char) : Option Nat :=
  let lLen := (s.takeWhile emailLocalChar).length
  if lLen == 0 then none
  else if s.get? lLen == some '@' then
    let s2 := s.drop (lLen + 1)
    let dRun := (s2.takeWhile emailDomainChar).length
    (emailDomainTail s2 dRun).map (fun t => lLen + 1 + t)
  else none

/-! ## PHONE: `(?:\+?1[-. ]?)?\(?([0-9]{3})\)?[-. ]?([0-9]{3})[-. ]?([0-9]{4})` -/

/-- Candidate consumed lengths, in JS priority order, for the optional lead
group `(?:\+?1[-. ]?)?`: greedy `?` tries the group first (with `\+?` and
`[-. ]?` themselves greedy), and the empty alternative last. -/
def phoneLeadCands : List Char → List Nat
  | '+' :: '1' :: c :: _ => if sepChar c then [3, 2, 0] else [2, 0]
  | '+' :: '1' :: [] => [2, 0]
  | '1' :: c :: _ => if sepChar c then [2, 1, 0] else [1, 0]
  | '1' :: [] => [1, 0]
  | _ => [0]

/-- Candidate consumed lengths, in JS priority order, for an optional
single-character class `X?` (greedy: consume if possible, then skip). -/
def optCands (p : Char → Bool) : List Char → List Nat
  | c :: _ => if p c then [1, 0] else [0]
  | [] => [0]

/-- Match of the PHONE pattern starting at the head of `s`. The nested
`findSome?` enumeration retries the innermost (most recent) choice point
first, which is the JS backtracking order. -/
def matchPhoneAt (_prev : Option Char) (s : List Char) : Option Nat :=
  (phoneLeadCands s).findSome? fun i =>
    let s1 := s.drop i
    (optCands (· == '(') s1).findSome? fun j =>
      let s2 := s1.drop j
      if exactDigits 3 s2 then
        let s3 := s2.drop 3
        (optCands (· == ')') s3).findSome? fun j2 =>
          let s4 := s3.drop j2
          (optCands sepChar s4).findSome? fun k1 =>
            let s5 := s4.drop k1
            if exactDigits 3 s5 then
              let s6 := s5.drop 3
              (optCands sepChar s6).findSome? fun k2 =>
                let s7 := s6.drop k2
                if exactDigits 4 s7 then
                  some (i + j + 3 + j2 + k1 + 3 + k2 + 4)
                else none
            else none
      else none

/-! ## SSN: `\b\d{3}-\d{2}-\d{4}\b` -/

/-- Match of the SSN pattern starting at the head of `s`; the pattern is
fully rigid, so the match length is always 11. -/
def matchSSNAt (prev : Option Char) (s : List Char) : Option Nat :=
  if boundaryAt prev s.head? &&
      exactDigits 3 s && s.get? 3 == some '-' &&
      exactDigits 2 (s.drop 4) && s.get? 6 == some '-' &&
      exactDigits 4 (s.drop 7) &&
      boundaryAt (s.get? 10) (s.get? 11)
  then some 11 else none

/-! ## CREDIT_CARD: `\b(?:\d[ -]*?){13,16}\b` -/

/-- One backtracking engine for the credit-card pattern, structurally
recursive on a fuel counter. `phase` 0 attempts the `\d` of the next iteration;
`phase` 1 is the greedy `{13,16}` choice (one more iteration preferred,
then — once at least 13 iterations are done — the closing `\b`); `phase` 2
is the lazy `[ -]*?` (continuation preferred, then one more separator).
Failure propagation re-enters earlier phases, which reproduces the JS rule
that the most recent choice point is retried first. `count` is the number of
completed `\d`s, `last` the last consumed character, and the result is the
number of characters consumed from `s` to the end of the match. -/
def ccRun : Nat → Nat → Nat → Char → List Char → Option Nat
  | 0, _, _, _, _ => none
  | fuel + 1, 0, count, _, s =>
    match s with
    | c :: rest =>
      if c.isDigit then (ccRun fuel 2 (count + 1) c rest).map (· + 1) else none
    | [] => none
  | fuel + 1, 1, count, last, s =>
    match (if count < 16 then ccRun fuel 0 count last s else none) with
    | some n => some n
    | none => if 13 ≤ count && boundaryAt (some last) s.head? then some 0 else none
  | fuel + 1, 2, count, last, s =>
    match ccRun fuel 1 count last s with
    | some n => some n
    | none =>
      match s with
      | c :: rest =>
        if c == ' ' || c == '-' then (ccRun fuel 2 count c rest).map (· + 1) else none
      | [] => none
  | _ + 1, _ + 3, _, _, _ => none

/-- Match of the CREDIT_CARD pattern starting at the head of `s`. The fuel
`3 * |s| + 40` bounds the depth of any call chain: every cycle through the
three phases consumes at least one character except for one final
fail-or-stop probe per position. -/
def matchCCAt (prev : Option Char) (s : List Char) : Option Nat :=
  if boundaryAt prev s.head? then ccRun (s.length * 3 + 40) 0 0 ' ' s else none

/-! ## ADDRESS (case-insensitive):
`\d+\s[A-Za-z0-9\s]+(?:Street|St|Avenue|Ave|Road|Rd|Boulevard|Blvd|Lane|Ln|Drive|Dr|Way)\.?` -/

/-- The middle class `[A-Za-z0-9\s]`. -/
def addrMidChar (c : Char) : Bool :=
  c.isAlpha || c.isDigit || isSpaceChar c

/-- The street-type alternation, in source order (tried left to right). -/
def streetTypes : List (List Char) :=
  ["Street", "St", "Avenue", "Ave", "Road", "Rd", "Boulevard", "Blvd",
   "Lane", "Ln", "Drive", "Dr", "Way"].map String.data

/-- Case-insensitive literal prefix test (the pattern has the `i` flag). -/
def ciStartsWith : List Char → List Char → Bool
  | [], _ => true
  | _ :: _, [] => false
  | p :: ps, c :: cs => p.toLower == c.toLower && ciStartsWith ps cs

/-- First street-type alternative that matches at the head of `s`
(case-insensitively), with its length. -/
def streetTypeAt (s : List Char) : Option Nat :=
  (streetTypes.find? (fun p => ciStartsWith p s)).map List.length

/-- The optional trailing `\.?` (greedy). -/
def dotOpt (s : List Char) : Nat :=
  match s with
  | '.' :: _ => 1
  | _ => 0

/-- Backtracking over the length of the greedy middle run `[A-Za-z0-9\s]+`:
try `k, k-1, …, 1` characters (longest first), then the alternation and the
optional dot. `s2` is the text after the single `\s`; returns the length
consumed from `s2`. -/
def addrTail (s2 : List Char) : Nat → Option Nat
  | 0 => none
  | k + 1 =>
    match streetTypeAt (s2.drop (k + 1)) with
    | some t => some ((k + 1) + t + dotOpt (s2.drop (k + 1 + t)))
    | none => addrTail s2 k

/-- Match of the ADDRESS pattern starting at the head of `s`. `\d+` needs no
backtracking: a digit is not `\s`, so only the maximal digit run can be
followed by the mandatory `\s`. -/
def matchAddressAt (_prev : Option Char) (s : List Char) : Option Nat :=
  let d := (s.takeWhile (·.isDigit)).length
  if d == 0 then none
  else
    match s.get? d with
    | some c =>
      if isSpaceChar c then
        let s2 := s.drop (d + 1)
        let m := (s2.takeWhile addrMidChar).length
        (addrTail s2 m).map (fun t => d + 1 + t)
      else none
    | none => none

/-! ## `String.prototype.replace` with the `g` flag -/

/-- One global-replace pass. `m` is a pattern matcher (taking the previous
character of the original text, for `\b`), `token` the literal replacement.
The scan tries the pattern at every position; on a match it emits the token
and resumes right after the matched span (replaced text is never rescanned
within a pass). The fuel is structural only; `fuel = |s|` always suffices
because every step consumes at least one character. A zero-length match
(impossible for the five patterns here, each consumes at least one
character) emits the token and advances one character, as JS does. -/
def replacePassAux (m : Option Char → List Char → Option Nat) (token : List Char) :
    Nat → Option Char → List Char → List Char
  | _, _, [] => []
  | 0, _, s => s
  | fuel + 1, prev, c :: rest =>
    match m prev (c :: rest) with
    | some (n + 1) =>
      token ++ replacePassAux m token fuel (some ((c :: rest).getD n c)) (rest.drop n)
    | some 0 => token ++ c :: replacePassAux m token fuel (some c) rest
    | none => c :: replacePassAux m token fuel (some c) rest

/-- `text.replace(pattern, token)` for a global pattern. -/
def replacePass (m : Option Char → List Char → Option Nat) (token : List Char)
    (s : List Char) : List Char :=
  replacePassAux m token s.length none s

/-! ## The securityLayer operations -/

/-- `redactPII`: the five replacement passes in source order (EMAIL, PHONE,
SSN, CREDIT_CARD, ADDRESS), each operating on the output of the previous
one; the `if (!text) return ""` guard maps the empty string to itself. -/
def redactPII (text : String) : String :=
  if text = "" then ""
  else
    let r1 := replacePass matchEmailAt "{REDACTED_EMAIL}".data text.data
    let r2 := replacePass matchPhoneAt "{REDACTED_PHONE}".data r1
    let r3 := replacePass matchSSNAt "{REDACTED_SSN}".data r2
    let r4 := replacePass matchCCAt "{REDACTED_CC}".data r3
    let r5 := replacePass matchAddressAt "{REDACTED_ADDRESS}".data r4
    String.mk r5

/-- `MAX_INPUT_CHARS = 100000`. -/
def MAX_INPUT_CHARS : Nat := 100000

/-- `validateInput`: `false` when the input length exceeds
`MAX_INPUT_CHARS`, `true` otherwise (the console warning is a side effect
outside the embedding). -/
def validateInput (text : String) : Bool :=
  if text.length > MAX_INPUT_CHARS then false else true

/-! ## Session state and lifecycle -/

/-- The module-level `currentSession` record. -/
structure SessionState where
  id : Option String
  isActive : Bool
  startTime : Nat
deriving DecidableEq

/-- JS truthiness of `currentSession.id`: `null` and `""` are falsy. -/
def jsTruthy : Option String → Bool
  | none => false
  | some s => !(s == "")

/-- One byte of the random array rendered as two lowercase hex digits
(the `toString(16)` call padded to width 2 with a leading zero). -/
def byteToHex (b : Nat) : List Char :=
  let ds := Nat.toDigits 16 (b % 256)
  if ds.length < 2 then List.replicate (2 - ds.length) '0' ++ ds else ds

/-- The session identifier: every random byte rendered as two hex digits,
concatenated (the `Array.from` map followed by the join). -/
def sessionIdOfBytes (bytes : List Nat) : String :=
  String.mk (List.flatten (bytes.map byteToHex))

/-- `initSession`: installs a fresh session record built from the random
bytes and the current time, and returns the generated identifier. The
randomness source and clock are passed in as parameters. -/
def initSession (bytes : List Nat) (now : Nat) : SessionState × String :=
  let sessionId := sessionIdOfBytes bytes
  (⟨some sessionId, true, now⟩, sessionId)

/-- `getSessionId`: a pure read of `currentSession.id`; the state is
returned unchanged. -/
def getSessionId (st : SessionState) : Option String × SessionState :=
  (st.id, st)

/-- `clearSession`: resets the record to `{id: null, isActive: false,
startTime: 0}` regardless of the previous state. -/
def clearSession (_st : SessionState) : SessionState :=
  ⟨none, false, 0⟩

/-! ## The guarded execution wrapper -/

/-- Outcome of one `secureExecute` call: a thrown `SecurityError` with its
message, the failure of the task rethrown unchanged, or the task result. -/
inductive ExecOutcome (ε α : Type) where
  | securityError (msg : String)
  | taskFailed (e : ε)
  | success (a : α)
deriving DecidableEq

/-- Observable calls made during one `secureExecute` invocation: the
arguments `redactPII` was applied to and the arguments the task closure was
invoked with. -/
structure ExecTrace where
  redactCalls : List String
  taskCalls : List String
deriving DecidableEq

/-- Result of one `secureExecute` call together with the session state after
the call (the wrapper never writes `currentSession`). -/
structure ExecResult (ε α : Type) where
  outcome : ExecOutcome ε α
  trace : ExecTrace
  finalState : SessionState

/-- The guard condition of `secureExecute`, as a positive notion: the
session is live when `currentSession.isActive` and `currentSession.id` are
both truthy. -/
def sessionLive (st : SessionState) : Bool :=
  st.isActive && jsTruthy st.id

/-- `secureExecute(input, taskName, task)`: throws on a dead session, then
on failed validation; otherwise computes `safeInput = redactPII(input)`,
invokes the task with `safeInput` only, and passes its result or failure
through unchanged. The task is embedded as a function into `Except`. -/
def secureExecute {ε α : Type} (st : SessionState) (input _taskName : String)
    (task : String → Except ε α) : ExecResult ε α :=
  if !st.isActive || !(jsTruthy st.id) then
    ⟨.securityError "Security Error: No active session.", ⟨[], []⟩, st⟩
  else if !(validateInput input) then
    ⟨.securityError "Security Error: Input validation failed (too large or unsafe).", ⟨[], []⟩, st⟩
  else
    let safeInput := redactPII input
    match task safeInput with
    | .ok r => ⟨.success r, ⟨[input], [safeInput]⟩, st⟩
    | .error e => ⟨.taskFailed e, ⟨[input], [safeInput]⟩, st⟩

/-! ## Reachable session states -/

/-- States reachable from the initial module state through the exported
operations. `secureExecute` steps are taken at a representative task type;
the wrapper returns its input state in every branch, for every type. -/
inductive Reachable : SessionState → Prop where
  | initial : Reachable ⟨none, false, 0⟩
  | step_init (st : SessionState) (bytes : List Nat) (now : Nat) :
      Reachable st → Reachable (initSession bytes now).1
  | step_clear (st : SessionState) :
      Reachable st → Reachable (clearSession st)
  | step_getId (st : SessionState) :
      Reachable st → Reachable (getSessionId st).2
  | step_exec (st : SessionState) (input name : String)
      (task : String → Except String String) :
      Reachable st → Reachable (secureExecute st input name task).finalState

/-! ## Statement-side notions -/

/-- `m` matches at some position of `s`, scanning with the same
previous-character tracking as `replacePass`. -/
def hasMatchFrom (m : Option Char → List Char → Option Nat) :
    Option Char → List Char → Bool
  | _, [] => false
  | prev, c :: rest => (m prev (c :: rest)).isSome || hasMatchFrom m (some c) rest

/-- Some of the five PII patterns matches somewhere in `text`. -/
def hasPIIMatch (text : String) : Bool :=
  hasMatchFrom matchEmailAt none text.data ||
  hasMatchFrom matchPhoneAt none text.data ||
  hasMatchFrom matchSSNAt none text.data ||
  hasMatchFrom matchCCAt none text.data ||
  hasMatchFrom matchAddressAt none text.data

/-- A 150000-character input, as in the end-to-end scenario. -/
def bigInput : String :=
  String.mk (List.replicate 150000 'a')

/-- The outcome `secureExecute` produces once it reaches the execution step:
the task result on success, the same failure value on failure (the
try/catch rethrows `error` unchanged). -/
def taskOutcome {ε α : Type} : Except ε α → ExecOutcome ε α
  | .ok a => .success a
  | .error e => .taskFailed e

end SecurityLayer

namespace SecurityLayer

/-! ## Helper lemmas -/

/-- A pass over text in which the pattern matches nowhere copies the text
unchanged, whatever the fuel. -/
theorem replacePassAux_of_no_match (m : Option Char → List Char → Option Nat)
    (token : List Char) :
    ∀ (s : List Char) (prev : Option Char) (fuel : Nat),
      hasMatchFrom m prev s = false →
      replacePassAux m token fuel prev s = s := by
  intro s
  induction s with
  | nil => intro prev fuel _; cases fuel <;> rfl
  | cons c rest ih =>
    intro prev fuel h
    simp only [hasMatchFrom, Bool.or_eq_false_iff] at h
    obtain ⟨h1, h2⟩ := h
    cases fuel with
    | zero => rfl
    | succ fuel =>
      cases hm : m prev (c :: rest) with
      | some n => rw [hm] at h1; simp at h1
      | none =>
        simp only [replacePassAux, hm]
        rw [ih (some c) fuel h2]

/-- `replacePass` version of the previous lemma. -/
theorem replacePass_of_no_match (m : Option Char → List Char → Option Nat)
    (token : List Char) (s : List Char) (h : hasMatchFrom m none s = false) :
    replacePass m token s = s :=
  replacePassAux_of_no_match m token s none s.length h

/-- The wrapper never writes the session record: every branch of
`secureExecute` returns the state it was given. -/
theorem secureExecute_finalState {ε α : Type} (st : SessionState)
    (input name : String) (task : String → Except ε α) :
    (secureExecute st input name task).finalState = st := by
  unfold secureExecute
  split
  · rfl
  · split
    · rfl
    · dsimp only
      split <;> rfl

/-- Splitting the live-session hypothesis into the two code conditions. -/
theorem sessionLive_spec (st : SessionState) (h : sessionLive st = true) :
    st.isActive = true ∧ jsTruthy st.id = true := by
  simpa [sessionLive, Bool.and_eq_true] using h

/-! ## Claim theorems -/

/-- Claim C1: under an active session and validated input, `secureExecute`
invokes the task exactly once, with `redactPII input` and never with the raw
input, applies `redactPII` exactly once, to the raw input, and resolves with
precisely the result (or failure) of `task (redactPII input)`. -/
theorem secureExecute_runs_task_on_redacted {ε α : Type} (st : SessionState)
    (input name : String) (task : String → Except ε α)
    (hs : sessionLive st = true) (hv : validateInput input = true) :
    (secureExecute st input name task).trace.taskCalls = [redactPII input]
    ∧ (secureExecute st input name task).trace.redactCalls = [input]
    ∧ (secureExecute st input name task).outcome = taskOutcome (task (redactPII input)) := by
  obtain ⟨hA, hT⟩ := sessionLive_spec st hs
  unfold secureExecute
  rw [hA, hT, hv]
  cases htask : task (redactPII input) <;>
    simp [taskOutcome, htask]

/-- Witness for C1 at a concrete live state, input and task. -/
theorem secureExecute_runs_task_on_redacted_witness :
    (secureExecute ⟨some "ab12cd34", true, 5⟩ "hello" "analyze"
        (fun s => (Except.ok s : Except String String))).trace.taskCalls = [redactPII "hello"]
    ∧ (secureExecute ⟨some "ab12cd34", true, 5⟩ "hello" "analyze"
        (fun s => (Except.ok s : Except String String))).trace.redactCalls = ["hello"]
    ∧ (secureExecute ⟨some "ab12cd34", true, 5⟩ "hello" "analyze"
        (fun s => (Except.ok s : Except String String))).outcome =
      taskOutcome ((fun s => (Except.ok s : Except String String)) (redactPII "hello")) :=
  secureExecute_runs_task_on_redacted ⟨some "ab12cd34", true, 5⟩ "hello" "analyze"
    (fun s => (Except.ok s : Except String String)) (by decide) (by decide)

/-- Claim C2: with no active session, `secureExecute` fails with the
no-active-session `SecurityError`, and neither `redactPII` nor the task
closure is invoked. -/
theorem secureExecute_no_session {ε α : Type} (st : SessionState)
    (input name : String) (task : String → Except ε α)
    (h : st.isActive = false) :
    (secureExecute st input name task).outcome =
      .securityError "Security Error: No active session."
    ∧ (secureExecute st input name task).trace.redactCalls = []
    ∧ (secureExecute st input name task).trace.taskCalls = [] := by
  unfold secureExecute
  rw [h]
  simp

/-- Witness for C2 at the initial (inactive) state. -/
theorem secureExecute_no_session_witness :
    (secureExecute ⟨none, false, 0⟩ "text" "analyze"
        (fun _ => (Except.ok 0 : Except String Nat))).outcome =
      .securityError "Security Error: No active session."
    ∧ (secureExecute ⟨none, false, 0⟩ "text" "analyze"
        (fun _ => (Except.ok 0 : Except String Nat))).trace.redactCalls = []
    ∧ (secureExecute ⟨none, false, 0⟩ "text" "analyze"
        (fun _ => (Except.ok 0 : Except String Nat))).trace.taskCalls = [] :=
  secureExecute_no_session ⟨none, false, 0⟩ "text" "analyze"
    (fun _ => (Except.ok 0 : Except String Nat)) (by decide)

/-- Claim C3: under an active session, an input longer than 100000
characters makes `secureExecute` fail with the validation `SecurityError`,
and the task closure is never invoked (nor is `redactPII`: the raw input is
not forwarded anywhere). -/
theorem secureExecute_input_too_large {ε α : Type} (st : SessionState)
    (input name : String) (task : String → Except ε α)
    (hs : sessionLive st = true) (hlen : 100000 < input.length) :
    (secureExecute st input name task).outcome =
      .securityError "Security Error: Input validation failed (too large or unsafe)."
    ∧ (secureExecute st input name task).trace.redactCalls = []
    ∧ (secureExecute st input name task).trace.taskCalls = [] := by
  obtain ⟨hA, hT⟩ := sessionLive_spec st hs
  have hv : validateInput input = false := by
    simp [validateInput, MAX_INPUT_CHARS, hlen]
  unfold secureExecute
  rw [hA, hT, hv]
  simp

/-- Length of the 150000-character input. -/
theorem bigInput_length : bigInput.length = 150000 := by
  rw [bigInput, String.length_mk, List.length_replicate]

/-- Witness for C3 at a concrete live state and the 150000-character input. -/
theorem secureExecute_input_too_large_witness :
    (secureExecute ⟨some "ab12cd34", true, 5⟩ bigInput "analyze"
        (fun _ => (Except.ok 0 : Except String Nat))).outcome =
      .securityError "Security Error: Input validation failed (too large or unsafe)."
    ∧ (secureExecute ⟨some "ab12cd34", true, 5⟩ bigInput "analyze"
        (fun _ => (Except.ok 0 : Except String Nat))).trace.redactCalls = []
    ∧ (secureExecute ⟨some "ab12cd34", true, 5⟩ bigInput "analyze"
        (fun _ => (Except.ok 0 : Except String Nat))).trace.taskCalls = [] :=
  secureExecute_input_too_large ⟨some "ab12cd34", true, 5⟩ bigInput "analyze"
    (fun _ => (Except.ok 0 : Except String Nat)) (by decide)
    (by rw [bigInput_length]; omega)

/-- Claim C4 as amended: each PII category match is replaced by the token
configured for it in the source, namely {REDACTED_EMAIL}, {REDACTED_PHONE},
{REDACTED_SSN}, {REDACTED_CC} and {REDACTED_ADDRESS}; in particular a
credit-card match is replaced by {REDACTED_CC}, not {REDACTED_CREDIT_CARD}. -/
theorem redact_category_tokens :
    redactPII "jane@example.com" = "{REDACTED_EMAIL}"
    ∧ redactPII "555-123-4567" = "{REDACTED_PHONE}"
    ∧ redactPII "123-45-6789" = "{REDACTED_SSN}"
    ∧ redactPII "4111 1111 1111 1111" = "{REDACTED_CC}"
    ∧ redactPII "123 Main Street" = "{REDACTED_ADDRESS}" := by
  refine ⟨by decide, by decide, by decide, by decide, by decide⟩

/-- Counterexample to claim C4 as stated: the credit-card replacement token
in the source is {REDACTED_CC}, so a redacted credit-card number is not the
claimed token {REDACTED_CREDIT_CARD}. -/
theorem redact_cc_token_counterexample :
    redactPII "4111-1111-1111-1111" = "{REDACTED_CC}"
    ∧ redactPII "4111-1111-1111-1111" ≠ "{REDACTED_CREDIT_CARD}" := by
  refine ⟨by decide, by decide⟩

/-- Claim C5: the two end-to-end redaction scenarios of the specification. -/
theorem redact_scenarios :
    redactPII "Contact me at jane@example.com or 555-123-4567" =
      "Contact me at {REDACTED_EMAIL} or {REDACTED_PHONE}"
    ∧ redactPII "SSN: 123-45-6789" = "SSN: {REDACTED_SSN}" := by
  refine ⟨by decide, by decide⟩

/-- Claim C6: `validateInput` returns `false` exactly when the input length
exceeds 100000 characters; an input of exactly 100000 characters passes and
one of 100001 fails. As a total Lean function it never throws. -/
theorem validateInput_false_iff (text : String) :
    (validateInput text = false ↔ 100000 < text.length)
    ∧ validateInput (String.mk (List.replicate 100000 'a')) = true
    ∧ validateInput (String.mk (List.replicate 100001 'a')) = false := by
  refine ⟨?_, ?_, ?_⟩
  · unfold validateInput MAX_INPUT_CHARS
    split <;> rename_i h <;> simp [h]
  · have h1 : (String.mk (List.replicate 100000 'a')).length = 100000 := by
      rw [String.length_mk, List.length_replicate]
    unfold validateInput MAX_INPUT_CHARS
    rw [h1]
    decide
  · have h1 : (String.mk (List.replicate 100001 'a')).length = 100001 := by
      rw [String.length_mk, List.length_replicate]
    unfold validateInput MAX_INPUT_CHARS
    rw [h1]
    decide

/-- Claim C7: when the task fails, `secureExecute` under an active session
and valid input rejects with exactly the failure value the task raised, with
no wrapping or translation. -/
theorem secureExecute_propagates_failure {ε α : Type} (st : SessionState)
    (input name : String) (task : String → Except ε α) (e : ε)
    (hs : sessionLive st = true) (hv : validateInput input = true)
    (he : task (redactPII input) = .error e) :
    (secureExecute st input name task).outcome = .taskFailed e := by
  obtain ⟨hA, hT⟩ := sessionLive_spec st hs
  unfold secureExecute
  rw [hA, hT, hv]
  simp [he]

/-- Witness for C7 at a concrete live state and an always-failing task. -/
theorem secureExecute_propagates_failure_witness :
    (secureExecute ⟨some "ab12cd34", true, 5⟩ "contract text" "analyze"
        (fun _ => (Except.error "boom" : Except String Nat))).outcome =
      .taskFailed "boom" :=
  secureExecute_propagates_failure ⟨some "ab12cd34", true, 5⟩ "contract text" "analyze"
    (fun _ => (Except.error "boom" : Except String Nat)) "boom"
    (by decide) (by decide) rfl

/-- Claim C8: on a string in which no PII pattern matches, `redactPII` is
the identity; the empty string maps to itself; and every replacement
placeholder is itself left unchanged by a further application of
`redactPII` (the tokens contain no digits or at-sign patterns). -/
theorem redactPII_identity_without_match (s : String) (h : hasPIIMatch s = false) :
    redactPII s = s
    ∧ redactPII "" = ""
    ∧ redactPII "{REDACTED_EMAIL}" = "{REDACTED_EMAIL}"
    ∧ redactPII "{REDACTED_PHONE}" = "{REDACTED_PHONE}"
    ∧ redactPII "{REDACTED_SSN}" = "{REDACTED_SSN}"
    ∧ redactPII "{REDACTED_CC}" = "{REDACTED_CC}"
    ∧ redactPII "{REDACTED_ADDRESS}" = "{REDACTED_ADDRESS}" := by
  refine ⟨?_, by decide, by decide, by decide, by decide, by decide, by decide⟩
  by_cases hs : s = ""
  · rw [hs]; rfl
  · simp only [hasPIIMatch, Bool.or_eq_false_iff] at h
    obtain ⟨⟨⟨⟨h1, h2⟩, h3⟩, h4⟩, h5⟩ := h
    unfold redactPII
    rw [if_neg hs]
    simp only
    rw [replacePass_of_no_match _ _ _ h1, replacePass_of_no_match _ _ _ h2,
      replacePass_of_no_match _ _ _ h3, replacePass_of_no_match _ _ _ h4,
      replacePass_of_no_match _ _ _ h5]

/-- Witness for C8 at a PII-free string. -/
theorem redactPII_identity_without_match_witness :
    redactPII "Hello World" = "Hello World"
    ∧ redactPII "" = ""
    ∧ redactPII "{REDACTED_EMAIL}" = "{REDACTED_EMAIL}"
    ∧ redactPII "{REDACTED_PHONE}" = "{REDACTED_PHONE}"
    ∧ redactPII "{REDACTED_SSN}" = "{REDACTED_SSN}"
    ∧ redactPII "{REDACTED_CC}" = "{REDACTED_CC}"
    ∧ redactPII "{REDACTED_ADDRESS}" = "{REDACTED_ADDRESS}" :=
  redactPII_identity_without_match "Hello World" (by decide)

/-- Claim C9: in every reachable session state the identifier is present
exactly when `isActive` is true; moreover `initSession` installs the
identifier it returns with `isActive` true, `clearSession` nulls the
identifier with `isActive` false, and `getSessionId` and `secureExecute`
leave the record unchanged. -/
theorem session_id_present_iff_active (st : SessionState) (h : Reachable st)
    (bytes : List Nat) (now : Nat) (input name : String)
    (task : String → Except String String) :
    st.id.isSome = st.isActive
    ∧ (initSession bytes now).1.id = some (initSession bytes now).2
    ∧ (initSession bytes now).1.isActive = true
    ∧ (clearSession st).id = none
    ∧ (clearSession st).isActive = false
    ∧ (getSessionId st).2 = st
    ∧ (secureExecute st input name task).finalState = st := by
  refine ⟨?_, rfl, rfl, rfl, rfl, rfl, secureExecute_finalState st input name task⟩
  induction h with
  | initial => rfl
  | step_init st' bytes' now' _ _ => rfl
  | step_clear st' _ _ => rfl
  | step_getId st' _ ih => exact ih
  | step_exec st' input' name' task' _ ih =>
    rw [secureExecute_finalState]
    exact ih

/-- Witness for C9 at the initial state. -/
theorem session_id_present_iff_active_witness :
    (⟨none, false, 0⟩ : SessionState).id.isSome =
      (⟨none, false, 0⟩ : SessionState).isActive
    ∧ (initSession [171, 5] 7).1.id = some (initSession [171, 5] 7).2
    ∧ (initSession [171, 5] 7).1.isActive = true
    ∧ (clearSession ⟨none, false, 0⟩).id = none
    ∧ (clearSession ⟨none, false, 0⟩).isActive = false
    ∧ (getSessionId ⟨none, false, 0⟩).2 = (⟨none, false, 0⟩ : SessionState)
    ∧ (secureExecute ⟨none, false, 0⟩ "text" "analyze"
        (fun s => (Except.ok s : Except String String))).finalState =
      (⟨none, false, 0⟩ : SessionState) :=
  session_id_present_iff_active ⟨none, false, 0⟩ Reachable.initial
    [171, 5] 7 "text" "analyze" (fun s => (Except.ok s : Except String String))

/-- Claim C10: `clearSession` deactivates the session and clears the
identifier, `getSessionId` then returns absent, and clearing is idempotent:
a second `clearSession` leaves the state identical (and, being total, never
fails). -/
theorem clearSession_clears_and_idempotent (st : SessionState) :
    (clearSession st).isActive = false
    ∧ (clearSession st).id = none
    ∧ (getSessionId (clearSession st)).1 = none
    ∧ clearSession (clearSession st) = clearSession st :=
  ⟨rfl, rfl, rfl, rfl⟩

end SecurityLayer
